import Mathlib

/-!
Shallow embedding of `cortex_memory/testing.py` (`MockCortex`), the in-memory
mock of the Cortex client, together with proofs of the specification claims
about its operations.

Modelling conventions:
* A Python `Dict[str, dict]` is an insertion-ordered association list
  `List (String × NodeRec)`; assignment to an existing key updates the entry
  in place (keeping its position), assignment to a fresh key appends.
* `uuid.uuid4()` is modelled by an identifier generator driven by a counter
  held in the state (`next_id`); randomness is not embeddable and only the
  freshness of issued identifiers matters to the claims.
* Python floats that are only constructed and compared (`0.9`, `0.5`) are
  modelled as rationals; no float arithmetic occurs in the source.
* Python `str.lower()` is modelled by an ASCII lowercase map over the
  character list, and `q in s` (substring test) by an explicit substring
  search on character lists.
-/

namespace Cortex

/-- `leadsWith q s` : the character list `q` is an initial segment of `s`. -/
def leadsWith : List Char → List Char → Bool
  | [], _ => true
  | _ :: _, [] => false
  | a :: as, b :: bs => a == b && leadsWith as bs

/-- `hasSub q s` : `q` occurs as a contiguous run inside `s`
(Python's `q in s` on strings). -/
def hasSub (q : List Char) : List Char → Bool
  | [] => leadsWith q []
  | b :: bs => leadsWith q (b :: bs) || hasSub q bs

/-- Python's `q in s` substring test on strings. -/
def pyIn (q s : String) : Bool :=
  hasSub q.data s.data

/-- ASCII lowercase on one character (the case `str.lower()` exercises on
the ASCII range). -/
def lowerChar (c : Char) : Char :=
  if 65 ≤ c.toNat ∧ c.toNat ≤ 90 then Char.ofNat (c.toNat + 32) else c

/-- Python `s.lower()`. -/
def pyLower (s : String) : String :=
  String.mk (s.data.map lowerChar)

/-- A stored node record: exactly the dict built by `MockCortex.store`. -/
structure NodeRec where
  id : String
  kind : String
  title : String
  body : String
  tags : List String
  importance : ℚ
  metadata : List (String × String)
  source_agent : String
deriving Repr, DecidableEq

/-- The fields of `_MockSearchResult`. -/
structure SearchResult where
  score : ℚ
  node_id : String
  title : String
  kind : String
  body : String
  importance : ℚ
deriving Repr, DecidableEq

/-- `_MockSearchResult(0.9, _MockNode(n))` as built in `MockCortex.search`. -/
def mkSearchResult (n : NodeRec) : SearchResult :=
  { score := 9 / 10
    node_id := n.id
    title := n.title
    kind := n.kind
    body := n.body
    importance := n.importance }

/-- The fields of the `_MockBriefing` object built by `briefing_full`. -/
structure MockBriefing where
  text : String
  nodes_consulted : Nat
  cached : Bool
  generated_at : String
deriving Repr, DecidableEq

/-- The dict returned by `MockCortex.traverse` (element types immaterial:
both lists are always empty in the source). -/
structure TraverseResult where
  nodes : List String
  edges : List String
deriving Repr, DecidableEq

/-- State of a `MockCortex`: the `_nodes` dict (insertion-ordered), the
`_call_log`, and the counter driving the fresh-identifier generator that
models `uuid.uuid4()`. -/
structure MockCortex where
  nodes : List (String × NodeRec)
  call_log : List (String × String × String)
  next_id : Nat
deriving Repr, DecidableEq

/-- `MockCortex.__init__`: empty node store and call log. -/
def MockCortex.init : MockCortex :=
  { nodes := [], call_log := [], next_id := 0 }

/-- The identifier issued for the `n`-th store call (models `uuid.uuid4()`). -/
def freshId (n : Nat) : String :=
  "uuid-" ++ toString n

/-- Python dict assignment `d[k] = v`: update in place if `k` is present,
append otherwise. -/
def dictSet (k : String) (v : NodeRec) : List (String × NodeRec) → List (String × NodeRec)
  | [] => [(k, v)]
  | (k', v') :: rest => if k' = k then (k, v) :: rest else (k', v') :: dictSet k v rest

/-- Python `d.get(k)`. -/
def dictGet (k : String) : List (String × NodeRec) → Option NodeRec
  | [] => none
  | (k', v) :: rest => if k' = k then some v else dictGet k rest

/-- The node dict built inside `MockCortex.store`: `body or title` defaults
the body to the title when the body is empty; `tags or []` and
`metadata or {}` collapse to the argument itself once `None` is replaced by
the empty value. -/
def storeRec (n : Nat) (kind title body : String) (tags : List String)
    (importance : ℚ) (metadata : List (String × String))
    (source_agent : String) : NodeRec :=
  { id := freshId n
    kind := kind
    title := title
    body := if body = "" then title else body
    tags := tags
    importance := importance
    metadata := metadata
    source_agent := source_agent }

/-- `MockCortex.store`: builds the node dict, inserts it under a fresh id,
logs the call, and returns the id.  No validation is performed. -/
def MockCortex.store (cx : MockCortex) (kind title body : String)
    (tags : List String) (importance : ℚ)
    (metadata : List (String × String)) (source_agent : String) :
    String × MockCortex :=
  let node_id := freshId cx.next_id
  let nr : NodeRec :=
    storeRec cx.next_id kind title body tags importance metadata source_agent
  (node_id,
    { cx with
        nodes := dictSet node_id nr cx.nodes
        call_log := cx.call_log ++ [("store", kind, title)]
        next_id := cx.next_id + 1 })

/-- The match predicate of `MockCortex.search`:
`q in n["title"].lower() or q in n["body"].lower()` with `q = query.lower()`. -/
def nodeMatches (query : String) (n : NodeRec) : Bool :=
  pyIn (pyLower query) (pyLower n.title) || pyIn (pyLower query) (pyLower n.body)

/-- `MockCortex.search`: substring match over the node dict in insertion
order, each hit scored `0.9`, truncated to `limit`. -/
def MockCortex.search (cx : MockCortex) (query : String) (limit : Nat) :
    List SearchResult :=
  (((cx.nodes.map Prod.snd).filter (nodeMatches query)).map mkSearchResult).take limit

/-- `MockCortex.search_hybrid`: delegates to `search`, ignoring `anchor_ids`. -/
def MockCortex.search_hybrid (cx : MockCortex) (query : String)
    (anchor_ids : List String) (limit : Nat) : List SearchResult :=
  cx.search query limit

/-- `MockCortex.briefing`: the fixed placeholder string. -/
def MockCortex.briefing (cx : MockCortex) (agent_id : String) (compact : Bool) :
    String :=
  "[Mock briefing for " ++ agent_id ++ "]"

/-- `MockCortex.briefing_full`: placeholder text, node count, `cached = False`,
empty timestamp. -/
def MockCortex.briefing_full (cx : MockCortex) (agent_id : String)
    (compact : Bool) : MockBriefing :=
  { text := "[Mock briefing for " ++ agent_id ++ "]"
    nodes_consulted := cx.nodes.length
    cached := false
    generated_at := "" }

/-- `MockCortex.get_node`: dict lookup, `None` when absent. -/
def MockCortex.get_node (cx : MockCortex) (node_id : String) : Option NodeRec :=
  dictGet node_id cx.nodes

/-- `MockCortex.traverse`: always returns empty node and edge lists. -/
def MockCortex.traverse (cx : MockCortex) (node_id : String) (depth : Nat)
    (direction : String) : TraverseResult :=
  { nodes := [], edges := [] }

/-- `reachN E k a b`: there is an edge path of length `k` from `a` to `b`
in the edge relation `E` (used to state the depth bound on traversal
against an arbitrary graph). -/
def reachN (E : String → String → Prop) : Nat → String → String → Prop
  | 0, a, b => a = b
  | k + 1, a, b => ∃ c, E a c ∧ reachN E k c b

/-- One store call with fixed arguments (kind `"fact"`, title `"t"`), used
to build concrete states. -/
def storeT (cx : MockCortex) : MockCortex :=
  (cx.store "fact" "t" "" [] (1 / 2) [] "").2

/-- A concrete state holding ten nodes, all titled `"t"`. -/
def cx10 : MockCortex :=
  storeT^[10] MockCortex.init

/-- A concrete state holding one node titled `"A"`. -/
def cxA : MockCortex :=
  (MockCortex.init.store "fact" "A" "" [] (1 / 2) [] "").2

/-! ### Helper lemmas -/

theorem leadsWith_refl (l : List Char) : leadsWith l l = true := by
  induction l with
  | nil => rfl
  | cons a as ih => simp [leadsWith, ih]

theorem hasSub_refl (l : List Char) : hasSub l l = true := by
  cases l with
  | nil => rfl
  | cons a as => simp [hasSub, leadsWith_refl]

theorem pyIn_refl (s : String) : pyIn s s = true :=
  hasSub_refl s.data

theorem nodeMatches_self_title (q : String) (n : NodeRec) (h : n.title = q) :
    nodeMatches q n = true := by
  simp [nodeMatches, h, pyIn_refl]

theorem dictGet_dictSet_self (k : String) (v : NodeRec)
    (l : List (String × NodeRec)) : dictGet k (dictSet k v l) = some v := by
  induction l with
  | nil => simp [dictSet, dictGet]
  | cons p rest ih =>
    by_cases hp : p.1 = k
    · simp [dictSet, dictGet, hp]
    · simp [dictSet, dictGet, hp, ih]

theorem dictGet_dictSet_ne (k k' : String) (v : NodeRec)
    (l : List (String × NodeRec)) (h : k' ≠ k) :
    dictGet k' (dictSet k v l) = dictGet k' l := by
  have h2 : k ≠ k' := fun hh => h hh.symm
  induction l with
  | nil => simp [dictSet, dictGet, h2]
  | cons p rest ih =>
    by_cases hp : p.1 = k
    · simp [dictSet, dictGet, hp, h2]
    · by_cases hk' : p.1 = k'
      · simp [dictSet, dictGet, hp, hk', h]
      · simp [dictSet, dictGet, hp, hk', ih]

theorem dictSet_append (k : String) (v : NodeRec)
    (l : List (String × NodeRec)) (h : ∀ p ∈ l, p.1 ≠ k) :
    dictSet k v l = l ++ [(k, v)] := by
  induction l with
  | nil => rfl
  | cons p rest ih =>
    have hp : p.1 ≠ k := h p (List.mem_cons_self p rest)
    simp [dictSet, hp, ih fun q hq => h q (List.mem_cons_of_mem p hq)]

theorem mem_dictSet_self (k : String) (v : NodeRec)
    (l : List (String × NodeRec)) : (k, v) ∈ dictSet k v l := by
  induction l with
  | nil => simp [dictSet]
  | cons p rest ih =>
    by_cases hp : p.1 = k
    · simp [dictSet, hp]
    · simp [dictSet, hp]
      exact Or.inr ih

theorem dictGet_eq_none (k : String) (l : List (String × NodeRec))
    (h : ∀ p ∈ l, p.1 ≠ k) : dictGet k l = none := by
  induction l with
  | nil => rfl
  | cons p rest ih =>
    have hp : p.1 ≠ k := h p (List.mem_cons_self p rest)
    simp [dictGet, hp, ih fun q hq => h q (List.mem_cons_of_mem p hq)]

/-! ### Claim theorems -/

/-- Claim C1 (amended): for every node created via `store`, an immediately
following `search` whose query is that node's exact title returns that node
among the results with score > 0, provided the number of stored nodes
matching that query (the new node included) does not exceed the search
limit. -/
theorem c1_read_your_writes (cx : MockCortex) (kind title body : String)
    (tags : List String) (importance : ℚ) (metadata : List (String × String))
    (source_agent : String) (limit : Nat)
    (h : (((cx.store kind title body tags importance metadata
        source_agent).2.nodes.map Prod.snd).filter
          (nodeMatches title)).length ≤ limit) :
    ∃ r ∈ (cx.store kind title body tags importance metadata
        source_agent).2.search title limit,
      r.node_id
          = (cx.store kind title body tags importance metadata source_agent).1 ∧
      0 < r.score := by
  refine ⟨mkSearchResult
      (storeRec cx.next_id kind title body tags importance metadata source_agent),
    ?_, rfl, by norm_num [mkSearchResult]⟩
  have hmem : storeRec cx.next_id kind title body tags importance metadata
        source_agent
      ∈ (cx.store kind title body tags importance metadata
          source_agent).2.nodes.map Prod.snd :=
    List.mem_map_of_mem Prod.snd (mem_dictSet_self _ _ _)
  have hmatch : nodeMatches title
      (storeRec cx.next_id kind title body tags importance metadata source_agent)
        = true :=
    nodeMatches_self_title title _ rfl
  have hmem2 := List.mem_filter.mpr ⟨hmem, hmatch⟩
  have hmem3 := List.mem_map_of_mem mkSearchResult hmem2
  have hlen : ((((cx.store kind title body tags importance metadata
      source_agent).2.nodes.map Prod.snd).filter
        (nodeMatches title)).map mkSearchResult).length ≤ limit := by
    simpa using h
  simp only [MockCortex.search]
  rw [List.take_of_length_le hlen]
  exact hmem3

/-- Claim C1 witness: on the empty mock, one stored node titled `"hello"`
is returned by `search "hello"` at limit 10 with positive score. -/
theorem c1_read_your_writes_witness :
    ((((MockCortex.init.store "fact" "hello" "" [] (1 / 2) [] "").2.nodes.map
        Prod.snd).filter (nodeMatches "hello")).length ≤ 10) ∧
    ∃ r ∈ (MockCortex.init.store "fact" "hello" "" [] (1 / 2) []
        "").2.search "hello" 10,
      r.node_id = (MockCortex.init.store "fact" "hello" "" [] (1 / 2) [] "").1 ∧
      0 < r.score :=
  ⟨by decide,
   c1_read_your_writes MockCortex.init "fact" "hello" "" [] (1 / 2) [] "" 10
     (by decide)⟩

/-- Claim C1 counterexample: after ten nodes titled `"t"`, an eleventh
`store` of title `"t"` followed by `search "t"` at the mock's default limit
10 does not return the new node — the result keeps the ten earlier nodes
and truncates the newest one away. -/
theorem c1_counterexample :
    (cx10.store "fact" "t" "" [] (1 / 2) [] "").1 = freshId 10 ∧
    (cx10.store "fact" "t" "" [] (1 / 2) [] "").2.nodes.length = 11 ∧
    ((cx10.store "fact" "t" "" [] (1 / 2) [] "").2.search "t" 10).length = 10 ∧
    (((cx10.store "fact" "t" "" [] (1 / 2) [] "").2.search "t" 10).map
        (fun r => r.node_id)).contains (freshId 10) = false := by
  decide

/-- Claim C2 counterexample: `store` with empty `kind` and empty `title` is
not rejected — the node store grows from zero to one record. -/
theorem c2_counterexample :
    MockCortex.init.nodes.length = 0 ∧
    (MockCortex.init.store "" "" "" [] (1 / 2) [] "").2.nodes.length = 1 := by
  decide

/-- Claim C2 (amended): `store` performs no validation: a call with empty
`kind` or empty `title` succeeds like any other call — the node is stored
under the returned id and the call is logged. -/
theorem c2_store_accepts_empty (cx : MockCortex) (kind title body : String)
    (tags : List String) (importance : ℚ) (metadata : List (String × String))
    (source_agent : String) (h : kind = "" ∨ title = "") :
    (cx.store kind title body tags importance metadata source_agent).2.get_node
        (cx.store kind title body tags importance metadata source_agent).1
      = some (storeRec cx.next_id kind title body tags importance metadata
          source_agent) ∧
    (cx.store kind title body tags importance metadata source_agent).2.call_log
      = cx.call_log ++ [("store", kind, title)] :=
  ⟨dictGet_dictSet_self _ _ _, rfl⟩

/-- Claim C2 witness: an empty `kind` on the empty mock still stores and
logs the node. -/
theorem c2_store_accepts_empty_witness :
    ("" = "" ∨ "x" = "") ∧
    ((MockCortex.init.store "" "x" "" [] (1 / 2) [] "").2.get_node
        (MockCortex.init.store "" "x" "" [] (1 / 2) [] "").1
      = some (storeRec MockCortex.init.next_id "" "x" "" [] (1 / 2) [] "") ∧
    (MockCortex.init.store "" "x" "" [] (1 / 2) [] "").2.call_log
      = MockCortex.init.call_log ++ [("store", "", "x")]) :=
  ⟨Or.inl rfl,
   c2_store_accepts_empty MockCortex.init "" "x" "" [] (1 / 2) [] "" (Or.inl rfl)⟩

/-- Claim C3 (amended): two consecutive `briefing_full` calls with no
intervening writes return identical rendered text (the text is determined
by the agent id alone), but the second call reports `cached = false`, not
`true` — the mock never caches; a `store` with `source_agent` equal to the
agent id between the calls still yields `cached = false` and unchanged
text. -/
theorem c3_briefing_never_cached (cx : MockCortex) (agent_id : String)
    (compact : Bool) (kind title body : String) (tags : List String)
    (importance : ℚ) (metadata : List (String × String)) :
    (cx.briefing_full agent_id compact).text
        = "[Mock briefing for " ++ agent_id ++ "]" ∧
    (cx.briefing_full agent_id compact).cached = false ∧
    ((cx.store kind title body tags importance metadata agent_id).2.briefing_full
        agent_id compact).cached = false ∧
    ((cx.store kind title body tags importance metadata agent_id).2.briefing_full
        agent_id compact).text = (cx.briefing_full agent_id compact).text :=
  ⟨rfl, rfl, rfl, rfl⟩

/-- Claim C3 counterexample: a repeated `briefing_full` call reports
`cached = false`, never `true` (the call is pure, so the second of two
consecutive calls is this very call). -/
theorem c3_counterexample :
    (MockCortex.init.briefing_full "a" false).cached ≠ true := by
  decide

/-- Claim C4: `get_node` on an id never issued returns `none`, and
`get_node` on a just-created id returns a record whose fields exactly match
the creation arguments, with `body` defaulted to `title` when the body
argument is empty (or omitted, the default being the empty string). -/
theorem c4_get_node_roundtrip (cx : MockCortex) (nid : String)
    (h : ∀ p ∈ cx.nodes, p.1 ≠ nid) (kind title body : String)
    (tags : List String) (importance : ℚ) (metadata : List (String × String))
    (source_agent : String) :
    cx.get_node nid = none ∧
    (cx.store kind title body tags importance metadata source_agent).2.get_node
        (cx.store kind title body tags importance metadata source_agent).1
      = some
        { id := (cx.store kind title body tags importance metadata source_agent).1
          kind := kind
          title := title
          body := if body = "" then title else body
          tags := tags
          importance := importance
          metadata := metadata
          source_agent := source_agent } :=
  ⟨dictGet_eq_none nid cx.nodes h, dictGet_dictSet_self _ _ _⟩

/-- Claim C4 witness: on the empty mock, a missing id yields `none` and a
stored node (empty body) is returned with `body` equal to its title. -/
theorem c4_get_node_roundtrip_witness :
    (∀ p ∈ MockCortex.init.nodes, p.1 ≠ "missing") ∧
    (MockCortex.init.get_node "missing" = none ∧
     (MockCortex.init.store "fact" "T" "" [] (1 / 2) [] "").2.get_node
        (MockCortex.init.store "fact" "T" "" [] (1 / 2) [] "").1
       = some
         { id := (MockCortex.init.store "fact" "T" "" [] (1 / 2) [] "").1
           kind := "fact"
           title := "T"
           body := if "" = "" then "T" else ""
           tags := []
           importance := 1 / 2
           metadata := []
           source_agent := "" }) :=
  ⟨by decide,
   c4_get_node_roundtrip MockCortex.init "missing" (by decide) "fact" "T" ""
     [] (1 / 2) [] ""⟩

/-- Claim C5: `search_hybrid` returns exactly the ranking of `search` on
the same query and limit — for every `anchor_ids` list, the empty one
included, proximity contributes nothing and hybrid search degenerates to
pure similarity ranking. -/
theorem c5_hybrid_degenerates_to_search (cx : MockCortex) (query : String)
    (anchor_ids : List String) (limit : Nat) :
    cx.search_hybrid query anchor_ids limit = cx.search query limit := rfl

/-- Claim C6: the `search` result is ordered by non-increasing score (all
hits score 9/10) and is an order-preserving subsequence of the stored nodes
in insertion order, so ties between equal scores are broken by earlier
insertion and the ranking is stable and deterministic. -/
theorem c6_search_ranking_stable (cx : MockCortex) (query : String)
    (limit : Nat) :
    (∀ r ∈ cx.search query limit, r.score = 9 / 10) ∧
    (cx.search query limit).Pairwise (fun a b => b.score ≤ a.score) ∧
    (cx.search query limit).Sublist
      ((cx.nodes.map Prod.snd).map mkSearchResult) := by
  have hsc : ∀ r ∈ cx.search query limit, r.score = 9 / 10 := by
    intro r hr
    simp only [MockCortex.search] at hr
    have hr' := List.mem_of_mem_take hr
    rcases List.mem_map.mp hr' with ⟨n, hn, rfl⟩
    rfl
  refine ⟨hsc, ?_, ?_⟩
  · exact List.pairwise_of_forall_mem_list fun a ha b hb =>
      le_of_eq ((hsc b hb).trans (hsc a ha).symm)
  · simp only [MockCortex.search]
    exact (List.take_sublist _ _).trans
      ((List.filter_sublist _).map mkSearchResult)

/-- Claim C7: traversal (a total function, hence terminating) visits each
node at most once and returns no node beyond the `max_depth` bound: for any
edge relation `E`, every returned node is reachable from the start node
within `depth` steps (vacuously — the mock returns no nodes at all). -/
theorem c7_traverse_bounded (cx : MockCortex) (node_id : String) (depth : Nat)
    (direction : String) (E : String → String → Prop) :
    (cx.traverse node_id depth direction).nodes.Nodup ∧
    ∀ n ∈ (cx.traverse node_id depth direction).nodes,
      ∃ k ≤ depth, reachN E k node_id n :=
  ⟨List.nodup_nil, fun n hn => absurd hn (List.not_mem_nil n)⟩

/-- Claim C8: search and briefing never fail on an empty result set: when
no stored node matches the query, `search` returns the empty list, and
`briefing` always returns the placeholder text (both are total
functions). -/
theorem c8_empty_results_safe (cx : MockCortex) (query : String) (limit : Nat)
    (agent_id : String) (compact : Bool)
    (h : ∀ n ∈ cx.nodes.map Prod.snd, nodeMatches query n = false) :
    cx.search query limit = [] ∧
    cx.briefing agent_id compact = "[Mock briefing for " ++ agent_id ++ "]" := by
  constructor
  · have hf : (cx.nodes.map Prod.snd).filter (nodeMatches query) = [] :=
      List.filter_eq_nil_iff.mpr fun a ha => by simp [h a ha]
    simp [MockCortex.search, hf]
  · rfl

/-- Claim C8 witness: on a state with one node titled `"A"`, the query
`"zzz"` matches nothing, `search` returns `[]`, and `briefing` returns the
placeholder. -/
theorem c8_empty_results_safe_witness :
    (∀ n ∈ cxA.nodes.map Prod.snd, nodeMatches "zzz" n = false) ∧
    (cxA.search "zzz" 10 = [] ∧
     cxA.briefing "kai" false = "[Mock briefing for " ++ "kai" ++ "]") :=
  ⟨by decide, c8_empty_results_safe cxA "zzz" 10 "kai" false (by decide)⟩

/-- Claim C9: `traverse` returns a result whose node list and edge list are
both empty, for every state, node id, depth and direction. -/
theorem c9_traverse_returns_empty (cx : MockCortex) (node_id : String)
    (depth : Nat) (direction : String) :
    cx.traverse node_id depth direction = { nodes := [], edges := [] } := rfl

/-- Claim C10: `store` is a frame-preserving insertion — assuming the fresh
id is unused (which the uuid generator guarantees), the new state's dict is
the old one with exactly one record appended under the returned id, and
lookups of every other key are unchanged. -/
theorem c10_store_frame (cx : MockCortex) (kind title body : String)
    (tags : List String) (importance : ℚ) (metadata : List (String × String))
    (source_agent : String)
    (h : ∀ p ∈ cx.nodes, p.1 ≠ freshId cx.next_id) :
    (cx.store kind title body tags importance metadata source_agent).2.nodes
      = cx.nodes ++
        [((cx.store kind title body tags importance metadata source_agent).1,
          storeRec cx.next_id kind title body tags importance metadata
            source_agent)] ∧
    ∀ k, k ≠ (cx.store kind title body tags importance metadata source_agent).1 →
      dictGet k
          (cx.store kind title body tags importance metadata source_agent).2.nodes
        = dictGet k cx.nodes :=
  ⟨dictSet_append _ _ _ h, fun k hk => dictGet_dictSet_ne _ k _ cx.nodes hk⟩

/-- Claim C10 witness: on a state with one node, a second `store` appends
exactly one record and leaves the first node's lookup unchanged. -/
theorem c10_store_frame_witness :
    (∀ p ∈ cxA.nodes, p.1 ≠ freshId cxA.next_id) ∧
    ((cxA.store "event" "B" "" [] (1 / 2) [] "").2.nodes
       = cxA.nodes ++
         [((cxA.store "event" "B" "" [] (1 / 2) [] "").1,
           storeRec cxA.next_id "event" "B" "" [] (1 / 2) [] "")] ∧
     ∀ k, k ≠ (cxA.store "event" "B" "" [] (1 / 2) [] "").1 →
       dictGet k (cxA.store "event" "B" "" [] (1 / 2) [] "").2.nodes
         = dictGet k cxA.nodes) :=
  ⟨by decide, c10_store_frame cxA "event" "B" "" [] (1 / 2) [] "" (by decide)⟩

end Cortex
